import Mathlib

/-
  Verification of the Shopify/Seal Subscriptions connector (src/server.js,
  full-tagging variant).  The JavaScript handler for POST /flow/order-created
  is shallowly embedded: remote HTTP services (the Shopify admin GraphQL API
  and the Seal subscription API) are modelled by a `World` of response
  oracles, JavaScript string-or-undefined values by `JStr := Option String`,
  and thrown exceptions by `Except String`.  Every embedded function also
  returns the list of remote calls it performs, so that "no remote call is
  made" and "tags actually sent" are provable statements.
-/

set_option maxRecDepth 10000

deriving instance DecidableEq for Except

/-- A JavaScript value that is either a string or undefined/null (both
collapsed to `none`; the source never distinguishes them observably). -/
abbrev JStr := Option String

/-- JavaScript truthiness for `JStr`: undefined/null and the empty string
are falsy, every other string is truthy. -/
def truthy : JStr → Bool
  | none => false
  | some s => s ≠ ""

/-- JavaScript `a || b` on string-or-undefined values: `a` when truthy,
otherwise `b` (whatever `b` is). -/
def jsOr (a b : JStr) : JStr := if truthy a then a else b

/-- JavaScript `String(x)` coercion: `String(undefined)` is the string
"undefined"; a string coerces to itself. -/
def jsString : JStr → String
  | none => "undefined"
  | some s => s

/-- JavaScript `text.slice(0, n)` for a nonnegative `n`. -/
def jsSlice (s : String) (n : Nat) : String := String.mk (s.data.take n)

/-- UTF-8 encoding of one character, as its list of byte values
(`Buffer.from(s, 'utf8')` encodes each code point this way). -/
def utf8EncodeCharBytes (c : Char) : List Nat :=
  let n := c.toNat
  if n < 0x80 then [n]
  else if n < 0x800 then [0xC0 + n / 64, 0x80 + n % 64]
  else if n < 0x10000 then [0xE0 + n / 4096, 0x80 + (n / 64) % 64, 0x80 + n % 64]
  else [0xF0 + n / 262144, 0x80 + (n / 4096) % 64, 0x80 + (n / 64) % 64, 0x80 + n % 64]

/-- The byte content of `Buffer.from(s, 'utf8')`. -/
def utf8Bytes (s : String) : List Nat :=
  s.data.foldr (fun c acc => utf8EncodeCharBytes c ++ acc) []

/-- src/server.js lines 24-28, `tscEquals`: builds
`Buffer.from(String(a) || '', 'utf8')` for both arguments, then returns
`A.length === B.length && crypto.timingSafeEqual(A, B)`.  On equal-length
buffers `timingSafeEqual` decides byte equality, so the whole is a length
check followed by byte-content equality.  Note `String(a) || ''` is the
identity on strings (only the empty string is falsy and it is replaced by
itself), so a missing header (`undefined`) becomes the 9-byte string
"undefined". -/
def tscEquals (a b : JStr) : Bool :=
  let A := utf8Bytes (jsString a)
  let B := utf8Bytes (jsString b)
  A.length == B.length && A == B

/-- A character allowed in the shop label by the regex
`/^[a-z0-9-]+\.myshopify\.com$/` (src/server.js line 21). -/
def isShopLabelChar (c : Char) : Bool := c.isLower || c.isDigit || c == '-'

/-- The fixed suffix required by the shop-domain regex. -/
def shopSuffix : List Char := ".myshopify.com".data

/-- src/server.js line 21, `isValidShop`: the regex
`/^[a-z0-9-]+\.myshopify\.com$/` holds exactly when the string is a
nonempty label of characters from `[a-z0-9-]` followed by the literal
suffix ".myshopify.com" (the label character class excludes the dot, so
the suffix split is unambiguous). -/
def isValidShop (s : String) : Bool :=
  let cs := s.data
  shopSuffix.isSuffixOf cs && decide (shopSuffix.length < cs.length) &&
    (cs.take (cs.length - shopSuffix.length)).all isShopLabelChar

/-- One element of the subscription-search result list; the handler reads
only its `id` (src/server.js line 87). -/
structure SubStub where
  id : JStr
deriving DecidableEq, Repr

/-- The fields of a subscription-detail payload the handler reads
(src/server.js lines 91-94). -/
structure SubDetail where
  id : JStr
  billing_min_cycles : Option Int
deriving DecidableEq, Repr

/-- A minimal subscription summary, src/server.js lines 91-94:
`{ id: d.id, billing_min_cycles: d.billing_min_cycles ?? null }`. -/
structure Summary where
  id : JStr
  billing_min_cycles : Option Int
deriving DecidableEq, Repr

/-- Interpolation of `billing_min_cycles` into a template string,
src/server.js line 98 (after the `!= null` filter the value is an
integer; `null` would interpolate as "null"). -/
def minCyclesStr : Option Int → String
  | some n => toString n
  | none => "null"

/-- src/server.js lines 96-99: the tag list built from the minimal
summaries — one `seal_sub_id_<id>` tag per subscription, plus one
`seal_min_cycles_<n>` tag per subscription whose `billing_min_cycles`
is not null/absent. -/
def deriveTags (minimal : List Summary) : List String :=
  minimal.map (fun m => "seal_sub_id_" ++ jsString m.id)
    ++ (minimal.filter (fun m => m.billing_min_cycles.isSome)).map
        (fun m => "seal_min_cycles_" ++ minCyclesStr m.billing_min_cycles)

/-- `Array.from(new Set(tags))` (src/server.js line 215): JavaScript `Set`
iterates in insertion order, so the result keeps the first occurrence of
each string, in order.  `seen` accumulates the strings already emitted. -/
def jsSetDedupAux (seen : List String) : List String → List String
  | [] => []
  | a :: rest =>
    if a ∈ seen then jsSetDedupAux seen rest
    else a :: jsSetDedupAux (a :: seen) rest

/-- `Array.from(new Set(tags))` (src/server.js line 215). -/
def jsSetDedup (l : List String) : List String := jsSetDedupAux [] l

theorem mem_jsSetDedupAux {b : String} :
    ∀ (l seen : List String), b ∈ jsSetDedupAux seen l → b ∈ l ∧ b ∉ seen := by
  intro l
  induction l with
  | nil => intro seen h; simp [jsSetDedupAux] at h
  | cons a rest ih =>
    intro seen h
    by_cases ha : a ∈ seen
    · simp [jsSetDedupAux, ha] at h
      rcases ih seen h with ⟨h1, h2⟩
      exact ⟨List.mem_cons_of_mem _ h1, h2⟩
    · simp [jsSetDedupAux, ha] at h
      rcases h with h | h
      · subst h; exact ⟨List.mem_cons_self _ _, ha⟩
      · rcases ih (a :: seen) h with ⟨h1, h2⟩
        refine ⟨List.mem_cons_of_mem _ h1, fun hb => h2 (List.mem_cons_of_mem _ hb)⟩

theorem nodup_jsSetDedupAux :
    ∀ (l seen : List String), (jsSetDedupAux seen l).Nodup := by
  intro l
  induction l with
  | nil => intro seen; simp [jsSetDedupAux]
  | cons a rest ih =>
    intro seen
    by_cases ha : a ∈ seen
    · simpa [jsSetDedupAux, ha] using ih seen
    · simp only [jsSetDedupAux, ha, if_false, List.nodup_cons]
      refine ⟨fun hmem => ?_, ih (a :: seen)⟩
      exact (mem_jsSetDedupAux rest (a :: seen) hmem).2 (List.mem_cons_self _ _)

theorem nodup_jsSetDedup (l : List String) : (jsSetDedup l).Nodup :=
  nodup_jsSetDedupAux l []

/-- The `customer { id }` (and, in the order-by-id query, `customer { email }`)
node of an order returned by the admin GraphQL API (src/server.js
lines 190, 200). -/
structure CustomerNode where
  id : JStr
  email : JStr
deriving DecidableEq, Repr

/-- An order node returned by the admin GraphQL API
(`nodes { id name email customer { id } }`, src/server.js line 190). -/
structure OrderNode where
  id : JStr
  name : JStr
  email : JStr
  customer : Option CustomerNode
deriving DecidableEq, Repr

/-- The partial order context threaded through `ensureOrderContext`
(src/server.js line 160): `shopDomain` is always a validated string,
the other four fields may be absent. -/
structure Ctx where
  shopDomain : String
  orderId : JStr
  orderName : JStr
  customerId : JStr
  email : JStr
deriving DecidableEq, Repr

/-- The JSON shapes the subscription-search normalization at
src/server.js line 144 distinguishes: a bare array, or any other JSON
value whose optional `payload` field may hold the array
(`Array.isArray(data) ? data : (data?.payload ?? [])`). -/
inductive SearchJson
  | arr (items : List SubStub)
  | other (payload : Option (List SubStub))
deriving DecidableEq, Repr

/-- The JSON shape of a subscription-detail body (src/server.js
line 154): `json?.payload || json` takes the `payload` member when it is
a truthy object, otherwise the whole body read as a detail record. -/
structure DetailJson where
  payload : Option SubDetail
  self : SubDetail
deriving DecidableEq, Repr

/-- An HTTP response from the Seal API as the handler observes it: the
`resp.ok` flag, the status, the raw body text, and the result of
`JSON.parse` on that text (`none` when the body is malformed, in which
case `safeJson` at src/server.js line 157 yields `{}`). -/
structure FetchResp (α : Type) where
  ok : Bool
  status : Nat
  bodyText : String
  parsed : Option α
deriving DecidableEq, Repr

/-- One remote call performed by the handler, with the arguments that
reach the wire.  `orderSearch` and `orderGet` are the two admin GraphQL
queries, `tagsMutation` the `tagsAdd` mutation with the deduplicated tag
list it sends. -/
inductive CallEv
  | orderSearch (shop token q : String)
  | orderGet (shop token oid : String)
  | sealSearch (email token : String)
  | sealGet (id token : String)
  | tagsMutation (shop token gid : String) (tags : List String)
deriving DecidableEq, Repr

/-- The remote services, as response oracles.  `orderSearch` and
`orderGet` return what `findOrderByName` and `getOrderById` extract from
the GraphQL data (`resp?.orders?.nodes?.[0] || null` resp. `resp?.order
|| null`), or the error thrown by `shopifyGraphQL` (non-2xx status, a
GraphQL `errors` member, or an unparseable body, all of which throw at
src/server.js lines 225-228).  The two Seal oracles return the HTTP
response itself because the handler inspects its body text.
`tagsMutation` returns the value of `r?.tagsAdd || r` for the mutation,
or the thrown error. -/
structure World where
  orderSearch : String → String → String → Except String (Option OrderNode)
  orderGet : String → String → String → Except String (Option OrderNode)
  sealSearchResp : String → String → FetchResp SearchJson
  sealGetResp : String → String → FetchResp DetailJson
  tagsMutation : String → String → String → List String → Except String String

/-- `orderName.startsWith('#')` (src/server.js line 186). -/
def startsWithHash (s : String) : Bool := s.data.head? == some '#'

/-- The search query built at src/server.js line 186:
`name:` followed by the order name, `#`-prefixed if not already. -/
def mkNameQuery (orderName : String) : String :=
  "name:" ++ (if startsWithHash orderName then orderName else "#" ++ orderName)

/-- src/server.js lines 185-195, `findOrderByName`: builds the name query
and runs the order search, returning the first node or null. -/
def findOrderByName (w : World) (shop token orderName : String) :
    Except String (Option OrderNode) × List CallEv :=
  let q := mkNameQuery orderName
  (w.orderSearch shop token q, [CallEv.orderSearch shop token q])

/-- src/server.js lines 197-204, `getOrderById`. -/
def getOrderById (w : World) (shop token orderId : String) :
    Except String (Option OrderNode) × List CallEv :=
  (w.orderGet shop token orderId, [CallEv.orderGet shop token orderId])

/-- `found?.id` — optional chaining through a possibly-null order node. -/
def nodeId : Option OrderNode → JStr
  | none => none
  | some n => n.id

/-- `found?.name`. -/
def nodeName : Option OrderNode → JStr
  | none => none
  | some n => n.name

/-- `found?.email`. -/
def nodeEmail : Option OrderNode → JStr
  | none => none
  | some n => n.email

/-- `found?.customer?.id`. -/
def nodeCustomerId : Option OrderNode → JStr
  | none => none
  | some n => match n.customer with
    | none => none
    | some c => c.id

/-- `got?.customer?.email`. -/
def nodeCustomerEmail : Option OrderNode → JStr
  | none => none
  | some n => match n.customer with
    | none => none
    | some c => c.email

/-- The merge of src/server.js lines 168-171: each of `orderId`,
`customerId`, `email`, `orderName` is reassigned `found?.field || field`,
so the lookup value wins whenever it is truthy. -/
def mergeFound (found : Option OrderNode) (c : Ctx) : Ctx :=
  { c with
      orderId := jsOr (nodeId found) c.orderId,
      customerId := jsOr (nodeCustomerId found) c.customerId,
      email := jsOr (nodeEmail found) c.email,
      orderName := jsOr (nodeName found) c.orderName }

/-- The merge of src/server.js lines 177-179: `orderName` is reassigned
`got?.name || orderName`; `email` becomes
`email || got?.email || got?.customer?.email || null` and `customerId`
becomes `customerId || got?.customer?.id || null` (existing value first,
falsy results normalized to null). -/
def mergeGot (got : Option OrderNode) (c : Ctx) : Ctx :=
  { c with
      orderName := jsOr (nodeName got) c.orderName,
      email := jsOr (jsOr (jsOr c.email (nodeEmail got)) (nodeCustomerEmail got)) none,
      customerId := jsOr (jsOr c.customerId (nodeCustomerId got)) none }

/-- src/server.js lines 166-172: if orderId is falsy and orderName is
truthy, look the order up by name and merge the result; otherwise leave
the context untouched with no remote call. -/
def nameLookupStep (w : World) (c : Ctx) (token : String) :
    Except String Ctx × List CallEv :=
  if !truthy c.orderId && truthy c.orderName then
    match findOrderByName w c.shopDomain token (jsString c.orderName) with
    | (.error e, t) => (.error e, t)
    | (.ok found, t) => (.ok (mergeFound found c), t)
  else (.ok c, [])

/-- src/server.js lines 175-180: if email, customerId or orderName is
still falsy and orderId is truthy, fetch the order by id and merge;
otherwise leave the context untouched with no remote call. -/
def idFetchStep (w : World) (c : Ctx) (token : String) :
    Except String Ctx × List CallEv :=
  if (!truthy c.email || !truthy c.customerId || !truthy c.orderName)
      && truthy c.orderId then
    match getOrderById w c.shopDomain token (jsString c.orderId) with
    | (.error e, t) => (.error e, t)
    | (.ok got, t) => (.ok (mergeGot got c), t)
  else (.ok c, [])

/-- src/server.js lines 160-183, `ensureOrderContext`.
Step 1 (lines 161-163): if orderId, customerId, email and orderName are
all truthy, return the context unchanged with no remote call.
Step 2 (lines 166-172): `nameLookupStep`.
Step 3 (lines 175-180): `idFetchStep` on the step-2 result.
Errors thrown by either lookup propagate to the caller. -/
def ensureOrderContext (w : World) (c : Ctx) (token : String) :
    Except String Ctx × List CallEv :=
  if truthy c.orderId && truthy c.customerId && truthy c.email && truthy c.orderName then
    (.ok c, [])
  else
    match nameLookupStep w c token with
    | (.error e, t) => (.error e, t)
    | (.ok c2, t) =>
      match idFetchStep w c2 token with
      | (.error e, t2) => (.error e, t ++ t2)
      | (.ok c3, t2) => (.ok c3, t ++ t2)

/-- src/server.js lines 138-145, `sealSearchByEmail`: a non-2xx response
throws `Seal search failed <status>: <body truncated to 300>`; otherwise
the body is parsed with `safeJson` (malformed body gives `{}`) and
normalized by `Array.isArray(data) ? data : (data?.payload ?? [])`. -/
def sealSearchByEmail (w : World) (email token : String) :
    Except String (List SubStub) × List CallEv :=
  let resp := w.sealSearchResp email token
  let ev := [CallEv.sealSearch email token]
  if !resp.ok then
    (.error ("Seal search failed " ++ toString resp.status ++ ": "
              ++ jsSlice resp.bodyText 300), ev)
  else
    match resp.parsed with
    | some (.arr items) => (.ok items, ev)
    | some (.other (some payload)) => (.ok payload, ev)
    | some (.other none) => (.ok [], ev)
    | none => (.ok [], ev)

/-- src/server.js lines 147-155, `sealGetById`: a non-2xx response throws
`Seal get failed (<id>) <status>: <body truncated>`; otherwise the body is
parsed with `safeJson` (malformed gives `{}`, whose absent `payload` falls
back to the empty object itself) and the result is `json?.payload || json`. -/
def sealGetById (w : World) (id : JStr) (token : String) :
    Except String SubDetail × List CallEv :=
  let resp := w.sealGetResp (jsString id) token
  let ev := [CallEv.sealGet (jsString id) token]
  if !resp.ok then
    (.error ("Seal get failed (" ++ jsString id ++ ") " ++ toString resp.status
              ++ ": " ++ jsSlice resp.bodyText 300), ev)
  else
    match resp.parsed with
    | none => (.ok { id := none, billing_min_cycles := none }, ev)
    | some j => (.ok (match j.payload with | some p => p | none => j.self), ev)

/-- src/server.js lines 86-88: `Promise.all(subs.map(s => sealGetById(s.id,
token)))` — the detail results in order, failing as a whole when any single
fetch fails. -/
def fetchDetails (w : World) (token : String) :
    List SubStub → Except String (List SubDetail) × List CallEv
  | [] => (.ok [], [])
  | s :: rest =>
    match sealGetById w s.id token with
    | (.error e, t) => (.error e, t)
    | (.ok d, t) =>
      match fetchDetails w token rest with
      | (.error e, t2) => (.error e, t ++ t2)
      | (.ok ds, t2) => (.ok (d :: ds), t ++ t2)

/-- The per-target tag-write result recorded in `tagResults`
(src/server.js lines 102-114): the mutation payload, a skip marker for an
empty tag list, or the `{ error }` object a caught exception becomes. -/
inductive TagWriteRes
  | skipped (msg : String)
  | applied (payload : String)
  | failed (msg : String)
deriving DecidableEq, Repr

/-- src/server.js lines 206-217, `tagsAdd`: `if (!tags?.length) return
{ skipped: 'no tags to add' }` — an absent or empty tag list returns the
skip marker with no remote call; otherwise the mutation is sent with
`Array.from(new Set(tags))` and its thrown error (if any) propagates to
the caller. -/
def tagsAdd (w : World) (shop token : String) (gid : JStr)
    (tags : Option (List String)) : Except String TagWriteRes × List CallEv :=
  match tags with
  | none => (.ok (.skipped "no tags to add"), [])
  | some ts =>
    if ts.length = 0 then (.ok (.skipped "no tags to add"), [])
    else
      let sent := jsSetDedup ts
      match w.tagsMutation shop token (jsString gid) sent with
      | .error e => (.error e, [CallEv.tagsMutation shop token (jsString gid) sent])
      | .ok r => (.ok (.applied r), [CallEv.tagsMutation shop token (jsString gid) sent])

/-- The local `try { ... } catch (e) { { error: e.message || fallback } }`
around each tag write (src/server.js lines 103-113). -/
def caughtTagResult (fallback : String) : Except String TagWriteRes → TagWriteRes
  | .ok r => r
  | .error e => .failed (if e = "" then fallback else e)

/-- One region row of the registry (src/server.js lines 14-18); `shop` is
truthy (falsy rows are filtered out at construction). -/
structure Region where
  code : String
  shop : String
  sealToken : JStr
  flowSecret : JStr
  shopifyToken : JStr
deriving DecidableEq, Repr

/-- `byShop.get(shopDomain)` (src/server.js lines 20, 62): the registry
keyed by shop domain (domains are unique, so `find?` is the map lookup). -/
def byShopGet (regs : List Region) (shop : String) : Option Region :=
  regs.find? (fun r => r.shop == shop)

/-- The fields of one POST /flow/order-created request the handler reads:
the five body fields (each possibly absent, also when the body itself is
absent) and the `X-Flow-Secret` header. -/
structure Request where
  shopDomain : JStr
  orderId : JStr
  orderName : JStr
  customerId : JStr
  email : JStr
  flowSecretHeader : JStr
deriving DecidableEq, Repr

/-- A response body: an `{ error }` object or the success payload of
src/server.js lines 116-125.  `customerId` is `ensured.customerId || null`
and `tagCustomer` is absent when no customer id was resolved. -/
inductive RespBody
  | err (msg : String)
  | success (shopDomain : String) (orderId orderName customerId email : JStr)
      (subscriptions : List Summary)
      (tagOrder : TagWriteRes) (tagCustomer : Option TagWriteRes)
deriving DecidableEq, Repr

/-- An HTTP response: status code and JSON body. -/
structure Response where
  status : Nat
  body : RespBody
deriving DecidableEq, Repr

/-- src/server.js lines 56-135, the POST /flow/order-created handler,
returning the response together with the remote calls performed.
Validation and authentication (lines 58-72) short-circuit with no remote
call; errors thrown by context resolution, subscription search or detail
fetch reach the top-level catch (lines 126-134) and become a 500
`Server error` (the debug flag is off); each tag write is caught locally
(lines 102-114). -/
def handleOrderCreated (regs : List Region) (w : World) (req : Request) :
    Response × List CallEv :=
  if !truthy req.shopDomain || !isValidShop (jsString req.shopDomain) then
    (⟨400, .err "Missing or invalid shopDomain"⟩, [])
  else
    match byShopGet regs (jsString req.shopDomain) with
    | none => (⟨400, .err ("Shop not recognized: " ++ jsString req.shopDomain)⟩, [])
    | some region =>
      if truthy region.flowSecret && !tscEquals req.flowSecretHeader region.flowSecret then
        (⟨401, .err "Bad X-Flow-Secret"⟩, [])
      else if !truthy region.sealToken then
        (⟨500, .err "Seal token not configured for shop"⟩, [])
      else if !truthy region.shopifyToken then
        (⟨500, .err "Shopify token not configured for shop"⟩, [])
      else
        match ensureOrderContext w
            ⟨jsString req.shopDomain, req.orderId, req.orderName, req.customerId, req.email⟩
            (jsString region.shopifyToken) with
        | (.error _, t) => (⟨500, .err "Server error"⟩, t)
        | (.ok ensured, t) =>
          if !truthy ensured.orderId then
            (⟨400, .err "orderId (gid) required or resolvable"⟩, t)
          else if !truthy ensured.email then
            (⟨400, .err "email required (send via Flow or resolvable from order)"⟩, t)
          else
            match sealSearchByEmail w (jsString ensured.email) (jsString region.sealToken) with
            | (.error _, t2) => (⟨500, .err "Server error"⟩, t ++ t2)
            | (.ok subs, t2) =>
              match fetchDetails w (jsString region.sealToken) subs with
              | (.error _, t3) => (⟨500, .err "Server error"⟩, t ++ t2 ++ t3)
              | (.ok details, t3) =>
                let minimal := details.map (fun d => Summary.mk d.id d.billing_min_cycles)
                let tags := deriveTags minimal
                let orderWrite := tagsAdd w (jsString req.shopDomain)
                    (jsString region.shopifyToken) ensured.orderId (some tags)
                let orderRes := caughtTagResult "order tagging failed" orderWrite.1
                let custPart : Option TagWriteRes × List CallEv :=
                  if truthy ensured.customerId then
                    let custWrite := tagsAdd w (jsString req.shopDomain)
                        (jsString region.shopifyToken) ensured.customerId (some tags)
                    (some (caughtTagResult "customer tagging failed" custWrite.1), custWrite.2)
                  else (none, [])
                (⟨200, .success (jsString req.shopDomain) ensured.orderId ensured.orderName
                    (jsOr ensured.customerId none) ensured.email minimal
                    orderRes custPart.1⟩,
                 t ++ t2 ++ t3 ++ orderWrite.2 ++ custPart.2)

theorem jsOr_of_truthy {a : JStr} (b : JStr) (h : truthy a = true) : jsOr a b = a := by
  simp [jsOr, h]

theorem truthy_jsOr_of_right {a b : JStr} (h : truthy b = true) :
    truthy (jsOr a b) = true := by
  unfold jsOr
  by_cases ha : truthy a = true
  · simp [ha]
  · simp [Bool.not_eq_true] at ha
    simp [ha, h]

/-- A subscription summary with truthy string ids, for concrete runs. -/
def mkSum (i : String) (c : Option Int) : Summary := ⟨some i, c⟩

/-- A world whose oracles all answer trivially (no order found, an empty
subscription search result, malformed detail bodies, a fixed mutation
payload). -/
def trivWorld : World where
  orderSearch := fun _ _ _ => .ok none
  orderGet := fun _ _ _ => .ok none
  sealSearchResp := fun _ _ => ⟨true, 200, "[]", some (.arr [])⟩
  sealGetResp := fun _ _ => ⟨true, 200, "", none⟩
  tagsMutation := fun _ _ _ _ => .ok "payload"

/-- C7: tag derivation is deterministic and order-independent — permuting
the subscription-summary list yields the same set of tags (same
membership) — and a subscription whose `billing_min_cycles` is absent or
null contributes only its `seal_sub_id_<id>` tag and no min-cycles tag. -/
theorem deriveTags_perm_invariant_and_none_case (l l2 : List Summary)
    (h : l.Perm l2) :
    (∀ t, t ∈ deriveTags l ↔ t ∈ deriveTags l2) ∧
    ∀ i : JStr, deriveTags [⟨i, none⟩] = ["seal_sub_id_" ++ jsString i] := by
  constructor
  · intro t
    have hperm : (deriveTags l).Perm (deriveTags l2) :=
      (h.map _).append ((h.filter _).map _)
    exact hperm.mem_iff
  · intro i
    rfl

theorem deriveTags_perm_invariant_and_none_case_witness :
    ([mkSum "1" (some 3), mkSum "2" none].Perm [mkSum "2" none, mkSum "1" (some 3)]) ∧
    (("seal_min_cycles_3" ∈ deriveTags [mkSum "1" (some 3), mkSum "2" none]) ↔
      ("seal_min_cycles_3" ∈ deriveTags [mkSum "2" none, mkSum "1" (some 3)])) ∧
    deriveTags [⟨some "x", none⟩] = ["seal_sub_id_x"] := by
  have hp : ([mkSum "1" (some 3), mkSum "2" none].Perm
      [mkSum "2" none, mkSum "1" (some 3)]) := by decide
  have h := deriveTags_perm_invariant_and_none_case _ _ hp
  exact ⟨hp, h.1 _, h.2 _⟩

/-- C9: `tagsAdd` with an absent or empty tag list returns the "skipped"
result and performs no remote call, for every shop, token and target
global id. -/
theorem tagsAdd_empty_skips (w : World) (shop token : String) (gid : JStr) :
    tagsAdd w shop token gid none = (.ok (.skipped "no tags to add"), []) ∧
    tagsAdd w shop token gid (some []) = (.ok (.skipped "no tags to add"), []) :=
  ⟨rfl, rfl⟩

/-- C6: the tag list is deduplicated before use — the mutation receives
exactly `Array.from(new Set(tags))`, which contains no duplicates, and
two subscriptions sharing `billing_min_cycles = 3` yield exactly one
`seal_min_cycles_3` tag in the sent list. -/
theorem tagsAdd_sends_dedup (w : World) (shop token : String) (gid : JStr)
    (l : List Summary) (h : deriveTags l ≠ []) :
    (∃ r, tagsAdd w shop token gid (some (deriveTags l)) =
        (r, [CallEv.tagsMutation shop token (jsString gid) (jsSetDedup (deriveTags l))]))
    ∧ (jsSetDedup (deriveTags l)).Nodup
    ∧ (jsSetDedup (deriveTags [mkSum "1" (some 3), mkSum "2" (some 3)])).count
        "seal_min_cycles_3" = 1 := by
  refine ⟨?_, nodup_jsSetDedup _, by decide⟩
  have hlen : ¬((deriveTags l).length = 0) := by
    simpa [List.length_eq_zero] using h
  unfold tagsAdd
  simp only [hlen, if_false]
  cases hmut : w.tagsMutation shop token (jsString gid) (jsSetDedup (deriveTags l)) with
  | error e => exact ⟨.error e, by simp [hmut]⟩
  | ok r => exact ⟨.ok (.applied r), by simp [hmut]⟩

theorem tagsAdd_sends_dedup_witness :
    (deriveTags [mkSum "1" (some 3), mkSum "2" (some 3)] ≠ []) ∧
    (∃ r, tagsAdd trivWorld "shop-uk.myshopify.com" "admin-tok" (some "gid-order-1")
        (some (deriveTags [mkSum "1" (some 3), mkSum "2" (some 3)])) =
      (r, [CallEv.tagsMutation "shop-uk.myshopify.com" "admin-tok" "gid-order-1"
            (jsSetDedup (deriveTags [mkSum "1" (some 3), mkSum "2" (some 3)]))])) := by
  have h := tagsAdd_sends_dedup trivWorld "shop-uk.myshopify.com" "admin-tok"
    (some "gid-order-1") [mkSum "1" (some 3), mkSum "2" (some 3)] (by decide)
  exact ⟨by decide, h.1⟩

/-- The order node the C1 scenario's order-by-name lookup returns: every
field truthy, with a customer id different from the one in the request. -/
def c1Found : OrderNode :=
  ⟨some "gid-order-77", some "#1001", some "found@x.com",
   some ⟨some "gid-cust-found", none⟩⟩

/-- A world whose order-by-name search always finds `c1Found`. -/
def c1World : World := { trivWorld with
  orderSearch := fun _ _ _ => .ok (some c1Found) }

/-- The C1 input context: orderId absent, orderName present, and truthy
customerId and email already supplied by the caller. -/
def c1In : Ctx :=
  ⟨"shop-uk.myshopify.com", none, some "1001", some "gid-cust-in", some "in@x.com"⟩

/-- C1 counterexample: with a truthy `customerId` (and `email`) in the
input context and an order-by-name lookup that returns a record, the
returned context does NOT keep the input values — the merge at
src/server.js lines 168-171 is `found?.field || field`, so the lookup
result wins whenever it is truthy.  Here `customerId` becomes the
lookup's "gid-cust-found" and `email` the lookup's "found@x.com". -/
theorem ensureOrderContext_lookup_overwrites_truthy :
    truthy c1In.customerId = true ∧ truthy c1In.email = true ∧
    (ensureOrderContext c1World c1In "admin-tok").1 =
      .ok ⟨"shop-uk.myshopify.com", some "gid-order-77", some "#1001",
           some "gid-cust-found", some "found@x.com"⟩ ∧
    some "gid-cust-found" ≠ c1In.customerId ∧
    some "found@x.com" ≠ c1In.email := by
  decide

/-- C1 amended: in the order-by-name branch the merge policy is the
opposite of the claim — the lookup result overwrites `orderId`,
`customerId`, `email` and `orderName` whenever the lookup value is
truthy, and the input value survives only when the lookup value is
falsy/absent.  Stated for a lookup whose four values are all truthy:
the returned context carries exactly the lookup values. -/
theorem ensureOrderContext_lookup_wins (w : World) (c : Ctx) (tok : String)
    (n : OrderNode) (cu : CustomerNode)
    (hOid : truthy c.orderId = false) (hOname : truthy c.orderName = true)
    (hfound : w.orderSearch c.shopDomain tok (mkNameQuery (jsString c.orderName)) =
      .ok (some n))
    (hcust : n.customer = some cu)
    (hid : truthy n.id = true) (hname : truthy n.name = true)
    (hemail : truthy n.email = true) (hcid : truthy cu.id = true) :
    (ensureOrderContext w c tok).1 =
      .ok { c with orderId := n.id, orderName := n.name,
                   customerId := cu.id, email := n.email } := by
  have hm : mergeFound (some n) c =
      { c with orderId := n.id, orderName := n.name,
               customerId := cu.id, email := n.email } := by
    simp [mergeFound, nodeId, nodeName, nodeEmail, nodeCustomerId, hcust,
      jsOr_of_truthy _ hid, jsOr_of_truthy _ hname, jsOr_of_truthy _ hemail,
      jsOr_of_truthy _ hcid]
  unfold ensureOrderContext nameLookupStep findOrderByName
  simp only [hOid, hOname, Bool.false_and, Bool.and_false, Bool.false_eq_true,
    if_false, Bool.not_false, Bool.and_self, if_true, hfound]
  rw [hm]
  unfold idFetchStep
  simp [hid, hname, hemail, hcid]

theorem ensureOrderContext_lookup_wins_witness :
    (ensureOrderContext c1World c1In "admin-tok").1 =
      .ok { c1In with orderId := c1Found.id, orderName := c1Found.name,
                      customerId := some "gid-cust-found", email := c1Found.email } := by
  have h := ensureOrderContext_lookup_wins c1World c1In "admin-tok" c1Found
    ⟨some "gid-cust-found", none⟩ (by decide) (by decide) (by decide) (by decide)
    (by decide) (by decide) (by decide) (by decide)
  exact h

/-- A fully configured region with no webhook secret. -/
def ukRegion : Region :=
  ⟨"UK", "shop-uk.myshopify.com", some "seal-tok", none, some "admin-tok"⟩

/-- A world whose subscription search answers 200 with a body that is not
parseable JSON (`parsed = none`). -/
def malformedSearchWorld : World := { trivWorld with
  sealSearchResp := fun _ _ => ⟨true, 200, "not-json", none⟩ }

/-- A request carrying a complete order context. -/
def fullReq : Request :=
  ⟨some "shop-uk.myshopify.com", some "gid-order-1", some "#1001",
   some "gid-cust-9", some "a@b.com", none⟩

/-- C2 counterexample: a 2xx subscription-search response whose body is
not parseable JSON does NOT fail the request — `safeJson` (src/server.js
line 157) turns the malformed body into `{}`, the normalization at line
144 turns that into an empty subscription list, and the webhook returns a
200 success response (with empty subscriptions and skipped tag writes),
not a 500. -/
theorem malformed_search_body_yields_200 :
    (malformedSearchWorld.sealSearchResp "a@b.com" "seal-tok").ok = true ∧
    (malformedSearchWorld.sealSearchResp "a@b.com" "seal-tok").parsed = none ∧
    handleOrderCreated [ukRegion] malformedSearchWorld fullReq =
      (⟨200, .success "shop-uk.myshopify.com" (some "gid-order-1") (some "#1001")
          (some "gid-cust-9") (some "a@b.com") [] (.skipped "no tags to add")
          (some (.skipped "no tags to add"))⟩,
       [CallEv.sealSearch "a@b.com" "seal-tok"]) := by
  decide

/-- C2 amended: a non-2xx subscription-search response is a hard failure
(the thrown error carries the status and the body truncated to 300
characters, and reaches the top-level catch as a 500), but a 2xx response
with an unparseable body is silently normalized to the empty subscription
list, so the request can still succeed with 200. -/
theorem sealSearch_malformed_normalized (w : World) (email token : String) :
    ((w.sealSearchResp email token).ok = true →
      (w.sealSearchResp email token).parsed = none →
      (sealSearchByEmail w email token).1 = .ok [])
    ∧ ((w.sealSearchResp email token).ok = false →
      (sealSearchByEmail w email token).1 =
        .error ("Seal search failed " ++ toString (w.sealSearchResp email token).status
          ++ ": " ++ jsSlice (w.sealSearchResp email token).bodyText 300)) := by
  constructor
  · intro hok hparse
    unfold sealSearchByEmail
    simp [hok, hparse]
  · intro hok
    unfold sealSearchByEmail
    simp [hok]

theorem sealSearch_malformed_normalized_witness :
    ((malformedSearchWorld.sealSearchResp "a@b.com" "seal-tok").ok = true ∧
      (malformedSearchWorld.sealSearchResp "a@b.com" "seal-tok").parsed = none) ∧
    (sealSearchByEmail malformedSearchWorld "a@b.com" "seal-tok").1 = .ok [] := by
  refine ⟨⟨by decide, by decide⟩, ?_⟩
  exact (sealSearch_malformed_normalized malformedSearchWorld "a@b.com" "seal-tok").1
    (by decide) (by decide)

/-- A region whose configured webhook secret is the literal string
"undefined" (a legal configuration value), with no Seal token. -/
def undefinedSecretRegion : Region :=
  ⟨"UK", "shop-uk.myshopify.com", none, some "undefined", none⟩

/-- C3 code bug: the claim (and the spec, which demands that a missing
`X-Flow-Secret` header always fail authentication) is violated by
`tscEquals`.  Line 25 of src/server.js computes `String(a) || ''`, which
maps a missing header to the 9-character string "undefined" (not to `''`
as the sibling seal-only variant's `String(a || '')` does), so for a
region whose secret is the literal string "undefined" a request with NO
header passes authentication: the handler proceeds past the secret check
and answers 500 for the missing Seal token instead of 401. -/
theorem missing_header_passes_undefined_secret :
    truthy undefinedSecretRegion.flowSecret = true ∧
    tscEquals none (some "undefined") = true ∧
    handleOrderCreated [undefinedSecretRegion] trivWorld
        ⟨some "shop-uk.myshopify.com", none, none, none, none, none⟩ =
      (⟨500, .err "Seal token not configured for shop"⟩, []) := by
  decide

theorem jsOr_chain2_of_truthy {a : JStr} (x : JStr) (h : truthy a = true) :
    jsOr (jsOr a x) none = a := by
  rw [jsOr_of_truthy x h, jsOr_of_truthy none h]

theorem jsOr_chain3_of_truthy {a : JStr} (x y : JStr) (h : truthy a = true) :
    jsOr (jsOr (jsOr a x) y) none = a := by
  rw [jsOr_of_truthy x h, jsOr_of_truthy y h, jsOr_of_truthy none h]

/-- The truthiness-preservation bundle used for the `ensureOrderContext`
frame property: the output context keeps the shop domain and keeps every
truthy field truthy. -/
def PreservesTruthy (c c2 : Ctx) : Prop :=
  c2.shopDomain = c.shopDomain ∧
  (truthy c.orderId = true → truthy c2.orderId = true) ∧
  (truthy c.orderName = true → truthy c2.orderName = true) ∧
  (truthy c.customerId = true → truthy c2.customerId = true) ∧
  (truthy c.email = true → truthy c2.email = true)

theorem preservesTruthy_refl (c : Ctx) : PreservesTruthy c c :=
  ⟨rfl, fun hx => hx, fun hx => hx, fun hx => hx, fun hx => hx⟩

theorem preservesTruthy_trans {a b c : Ctx} (h1 : PreservesTruthy a b)
    (h2 : PreservesTruthy b c) : PreservesTruthy a c :=
  ⟨h2.1.trans h1.1, fun hx => h2.2.1 (h1.2.1 hx), fun hx => h2.2.2.1 (h1.2.2.1 hx),
   fun hx => h2.2.2.2.1 (h1.2.2.2.1 hx), fun hx => h2.2.2.2.2 (h1.2.2.2.2 hx)⟩

theorem mergeFound_preserves (f : Option OrderNode) (c : Ctx) :
    PreservesTruthy c (mergeFound f c) := by
  unfold PreservesTruthy mergeFound
  refine ⟨rfl, ?_, ?_, ?_, ?_⟩ <;> intro hx <;> exact truthy_jsOr_of_right hx

theorem mergeGot_preserves (g : Option OrderNode) (c : Ctx) :
    PreservesTruthy c (mergeGot g c) := by
  unfold PreservesTruthy mergeGot
  refine ⟨rfl, fun hx => hx, ?_, ?_, ?_⟩
  · intro hx; exact truthy_jsOr_of_right hx
  · intro hx
    show truthy (jsOr (jsOr c.customerId (nodeCustomerId g)) none) = true
    rw [jsOr_chain2_of_truthy _ hx]; exact hx
  · intro hx
    show truthy (jsOr (jsOr (jsOr c.email (nodeEmail g)) (nodeCustomerEmail g)) none) = true
    rw [jsOr_chain3_of_truthy _ _ hx]; exact hx

theorem nameLookupStep_preserves {w : World} {c : Ctx} {tok : String}
    {c2 : Ctx} {t : List CallEv} (h : nameLookupStep w c tok = (.ok c2, t)) :
    PreservesTruthy c c2 := by
  unfold nameLookupStep at h
  split at h
  · split at h
    · exact absurd h (by simp)
    · rename_i found tt hfound
      simp only [Prod.mk.injEq, Except.ok.injEq] at h
      obtain ⟨hc, -⟩ := h
      subst hc
      exact mergeFound_preserves found c
  · simp only [Prod.mk.injEq, Except.ok.injEq] at h
    obtain ⟨hc, -⟩ := h
    subst hc
    exact preservesTruthy_refl c

theorem idFetchStep_preserves {w : World} {c : Ctx} {tok : String}
    {c2 : Ctx} {t : List CallEv} (h : idFetchStep w c tok = (.ok c2, t)) :
    PreservesTruthy c c2 := by
  unfold idFetchStep at h
  split at h
  · split at h
    · exact absurd h (by simp)
    · rename_i got tt hgot
      simp only [Prod.mk.injEq, Except.ok.injEq] at h
      obtain ⟨hc, -⟩ := h
      subst hc
      exact mergeGot_preserves got c
  · simp only [Prod.mk.injEq, Except.ok.injEq] at h
    obtain ⟨hc, -⟩ := h
    subst hc
    exact preservesTruthy_refl c

/-- C10: `ensureOrderContext` never loses information — whatever the
remote lookups return, the returned context keeps `shopDomain` unchanged
and every field among `orderId`, `orderName`, `customerId`, `email` that
is truthy in the input is still truthy in the output. -/
theorem ensureOrderContext_preserves_truthy (w : World) (c : Ctx) (tok : String)
    (c2 : Ctx) (t : List CallEv)
    (h : ensureOrderContext w c tok = (.ok c2, t)) :
    c2.shopDomain = c.shopDomain ∧
    (truthy c.orderId = true → truthy c2.orderId = true) ∧
    (truthy c.orderName = true → truthy c2.orderName = true) ∧
    (truthy c.customerId = true → truthy c2.customerId = true) ∧
    (truthy c.email = true → truthy c2.email = true) := by
  have main : PreservesTruthy c c2 := by
    unfold ensureOrderContext at h
    split at h
    · simp only [Prod.mk.injEq, Except.ok.injEq] at h
      obtain ⟨hc, -⟩ := h
      subst hc
      exact preservesTruthy_refl c
    · split at h
      · exact absurd h (by simp)
      · rename_i cmid tmid hmid
        split at h
        · exact absurd h (by simp)
        · rename_i c3 t2 hstep3
          simp only [Prod.mk.injEq, Except.ok.injEq] at h
          obtain ⟨hc, -⟩ := h
          subst hc
          exact preservesTruthy_trans (nameLookupStep_preserves hmid)
            (idFetchStep_preserves hstep3)
  exact main

/-- An order context with all four optional fields truthy. -/
def fullCtx : Ctx :=
  ⟨"shop-uk.myshopify.com", some "gid-order-1", some "#1001",
   some "gid-cust-9", some "a@b.com"⟩

theorem ensureOrderContext_preserves_truthy_witness :
    fullCtx.shopDomain = fullCtx.shopDomain ∧
    (truthy fullCtx.orderId = true → truthy fullCtx.orderId = true) ∧
    (truthy fullCtx.orderName = true → truthy fullCtx.orderName = true) ∧
    (truthy fullCtx.customerId = true → truthy fullCtx.customerId = true) ∧
    (truthy fullCtx.email = true → truthy fullCtx.email = true) :=
  ensureOrderContext_preserves_truthy trivWorld fullCtx "admin-tok" fullCtx []
    (by decide)

/-- `isValidShop` decides exactly the regex pattern of src/server.js line
21: a nonempty label of lowercase letters, digits and hyphens followed by
the literal ".myshopify.com". -/
theorem isValidShop_iff (s : String) :
    isValidShop s = true ↔
      ∃ lab : List Char, lab ≠ [] ∧ (∀ c ∈ lab, isShopLabelChar c = true) ∧
        s.data = lab ++ shopSuffix := by
  unfold isValidShop
  simp only [Bool.and_eq_true, decide_eq_true_eq, List.isSuffixOf_iff_suffix,
    List.all_eq_true]
  constructor
  · rintro ⟨⟨⟨t, ht⟩, hlen⟩, hall⟩
    have htake : s.data.take (s.data.length - shopSuffix.length) = t := by
      rw [← ht]
      have hlen2 : (t ++ shopSuffix).length - shopSuffix.length = t.length := by
        simp
      rw [hlen2]
      exact List.take_left t shopSuffix
    refine ⟨t, ?_, ?_, ht.symm⟩
    · intro h0
      subst h0
      rw [← ht] at hlen
      simp at hlen
    · intro x hx
      rw [htake] at hall
      exact hall x hx
  · rintro ⟨lab, hne, hall, hdata⟩
    have hlab : 0 < lab.length := by
      cases lab with
      | nil => exact absurd rfl hne
      | cons a l => simp
    refine ⟨⟨⟨lab, hdata.symm⟩, ?_⟩, ?_⟩
    · rw [hdata]
      simpa using hlab
    · intro x hx
      rw [hdata] at hx
      have hlen2 : (lab ++ shopSuffix).length - shopSuffix.length = lab.length := by
        simp
      rw [hlen2, List.take_left] at hx
      exact hall x hx

/-- C8: a request whose shop domain does not match the pattern
`<label>.myshopify.com` (lowercase letters, digits, hyphens in the label)
is answered 400 "Missing or invalid shopDomain" with no remote call; a
well-formed domain absent from the registry is answered 400 with the
distinct "Shop not recognized" message, also with no remote call. -/
theorem invalid_or_unknown_shop_rejected_without_calls
    (regs : List Region) (w : World) (req : Request) :
    ((¬∃ lab : List Char, lab ≠ [] ∧ (∀ c ∈ lab, isShopLabelChar c = true) ∧
        (jsString req.shopDomain).data = lab ++ shopSuffix) →
      handleOrderCreated regs w req =
        (⟨400, .err "Missing or invalid shopDomain"⟩, []))
    ∧ ((∃ lab : List Char, lab ≠ [] ∧ (∀ c ∈ lab, isShopLabelChar c = true) ∧
        (jsString req.shopDomain).data = lab ++ shopSuffix) →
      byShopGet regs (jsString req.shopDomain) = none →
      handleOrderCreated regs w req =
        (⟨400, .err ("Shop not recognized: " ++ jsString req.shopDomain)⟩, []))
    ∧ (∀ d : String,
        ("Shop not recognized: " ++ d) ≠ "Missing or invalid shopDomain") := by
  refine ⟨?_, ?_, ?_⟩
  · intro hnot
    have hv : isValidShop (jsString req.shopDomain) = false := by
      rcases Bool.eq_false_or_eq_true (isValidShop (jsString req.shopDomain)) with h1 | h1
      · exact absurd ((isValidShop_iff _).mp h1) hnot
      · exact h1
    unfold handleOrderCreated
    simp [hv]
  · intro hpat hmiss
    have hv : isValidShop (jsString req.shopDomain) = true :=
      (isValidShop_iff _).mpr hpat
    have htr : truthy req.shopDomain = true := by
      cases hsd : req.shopDomain with
      | none =>
        rw [hsd] at hv
        exact absurd hv (by decide)
      | some s =>
        by_cases hs : s = ""
        · subst hs
          rw [hsd] at hv
          exact absurd hv (by decide)
        · simp [truthy, hs]
    unfold handleOrderCreated
    simp [htr, hv, hmiss]
  · intro d h
    have h3 : "Shop not recognized: ".data ++ d.data =
        "Missing or invalid shopDomain".data := congrArg String.data h
    have h5 : ('S' :: ("hop not recognized: ".data ++ d.data)) =
        'M' :: "issing or invalid shopDomain".data := h3
    injection h5 with h7 h8
    exact absurd h7 (by decide)

theorem invalid_or_unknown_shop_rejected_without_calls_witness :
    handleOrderCreated [ukRegion] trivWorld
        ⟨some "not a shop domain", none, none, none, none, none⟩ =
      (⟨400, .err "Missing or invalid shopDomain"⟩, []) ∧
    handleOrderCreated [ukRegion] trivWorld
        ⟨some "other-shop.myshopify.com", none, none, none, none, none⟩ =
      (⟨400, .err "Shop not recognized: other-shop.myshopify.com"⟩, []) := by
  constructor
  · exact (invalid_or_unknown_shop_rejected_without_calls [ukRegion] trivWorld
      ⟨some "not a shop domain", none, none, none, none, none⟩).1 (by
        intro hpat
        have hv : isValidShop (jsString (some "not a shop domain")) = true :=
          (isValidShop_iff _).mpr hpat
        exact absurd hv (by decide))
  · exact ((invalid_or_unknown_shop_rejected_without_calls [ukRegion] trivWorld
      ⟨some "other-shop.myshopify.com", none, none, none, none, none⟩).2.1
        ((isValidShop_iff _).mp (by decide)) (by decide))

/-- C4: on the success path the two tag writes are independent — the
response is always 200 and each target's recorded result is exactly the
locally-caught outcome of its own `tagsAdd` invocation (an exception in
either write is converted to a `failed` record for that target only and
leaves the other's result untouched). -/
theorem tag_writes_independent
    (regs : List Region) (w : World) (req : Request) (region : Region)
    (ensured : Ctx) (subs : List SubStub) (details : List SubDetail)
    (t1 t2 t3 : List CallEv)
    (hdom : truthy req.shopDomain = true)
    (hvalid : isValidShop (jsString req.shopDomain) = true)
    (hreg : byShopGet regs (jsString req.shopDomain) = some region)
    (hsec : (truthy region.flowSecret &&
      !tscEquals req.flowSecretHeader region.flowSecret) = false)
    (hseal : truthy region.sealToken = true)
    (hshopify : truthy region.shopifyToken = true)
    (hens : ensureOrderContext w
      ⟨jsString req.shopDomain, req.orderId, req.orderName, req.customerId, req.email⟩
      (jsString region.shopifyToken) = (.ok ensured, t1))
    (hoid : truthy ensured.orderId = true)
    (hemail : truthy ensured.email = true)
    (hsearch : sealSearchByEmail w (jsString ensured.email)
      (jsString region.sealToken) = (.ok subs, t2))
    (hdet : fetchDetails w (jsString region.sealToken) subs = (.ok details, t3))
    (hcid : truthy ensured.customerId = true) :
    (handleOrderCreated regs w req).1 =
      ⟨200, .success (jsString req.shopDomain) ensured.orderId ensured.orderName
        (jsOr ensured.customerId none) ensured.email
        (details.map (fun d => Summary.mk d.id d.billing_min_cycles))
        (caughtTagResult "order tagging failed"
          (tagsAdd w (jsString req.shopDomain) (jsString region.shopifyToken)
            ensured.orderId
            (some (deriveTags
              (details.map (fun d => Summary.mk d.id d.billing_min_cycles))))).1)
        (some (caughtTagResult "customer tagging failed"
          (tagsAdd w (jsString req.shopDomain) (jsString region.shopifyToken)
            ensured.customerId
            (some (deriveTags
              (details.map (fun d => Summary.mk d.id d.billing_min_cycles))))).1))⟩ := by
  unfold handleOrderCreated
  simp [hdom, hvalid, hreg, hsec, hseal, hshopify, hens, hoid, hemail, hsearch,
    hdet, hcid]

/-- A world that finds one subscription (id 77, min cycles 3) and whose
tag mutation throws "boom" for the order gid but succeeds for the
customer gid. -/
def tagFailWorld : World := { trivWorld with
  sealSearchResp := fun _ _ => ⟨true, 200, "[]", some (.arr [⟨some "77"⟩])⟩
  sealGetResp := fun _ _ => ⟨true, 200, "", some ⟨some ⟨some "77", some 3⟩, ⟨none, none⟩⟩⟩
  tagsMutation := fun _ _ gid _ =>
    if gid = "gid-order-1" then .error "boom" else .ok "done" }

theorem tag_writes_independent_witness :
    (handleOrderCreated [ukRegion] tagFailWorld fullReq).1 =
      ⟨200, .success "shop-uk.myshopify.com" (some "gid-order-1") (some "#1001")
        (some "gid-cust-9") (some "a@b.com") [⟨some "77", some 3⟩]
        (.failed "boom") (some (.applied "done"))⟩ := by
  have h := tag_writes_independent [ukRegion] tagFailWorld fullReq ukRegion
    fullCtx [⟨some "77"⟩] [⟨some "77", some 3⟩]
    [] [CallEv.sealSearch "a@b.com" "seal-tok"] [CallEv.sealGet "77" "seal-tok"]
    (by decide) (by decide) (by decide) (by decide) (by decide) (by decide)
    (by decide) (by decide) (by decide) (by decide) (by decide) (by decide)
  rw [h]
  decide

theorem exists_fail_fetchDetails (w : World) (token : String) :
    ∀ subs : List SubStub,
    (∃ s ∈ subs, (w.sealGetResp (jsString s.id) token).ok = false) →
    ∃ e t, fetchDetails w token subs = (.error e, t) := by
  intro subs
  induction subs with
  | nil => intro h; simp at h
  | cons s rest ih =>
    intro h
    rcases h with ⟨x, hx, hfail⟩
    rcases List.mem_cons.mp hx with hx1 | hx2
    · subst hx1
      cases hsg : sealGetById w x.id token with
      | mk r tr =>
        cases r with
        | error e =>
          exact ⟨e, tr, by simp only [fetchDetails]; rw [hsg]⟩
        | ok d =>
          exfalso
          unfold sealGetById at hsg
          simp [hfail] at hsg
    · obtain ⟨e, t2, hrest⟩ := ih ⟨x, hx2, hfail⟩
      cases hsg : sealGetById w s.id token with
      | mk r tr =>
        cases r with
        | error e2 =>
          exact ⟨e2, tr, by simp only [fetchDetails]; rw [hsg]⟩
        | ok d =>
          exact ⟨e, tr ++ t2, by simp only [fetchDetails]; rw [hsg, hrest]⟩

/-- C5: if any single per-subscription detail fetch fails, the whole
lookup fails and the request is answered with the generic 500 error body
(which carries no subscription data) — the success payload is never built
from an incomplete set of detail results. -/
theorem failed_detail_fetch_aborts
    (regs : List Region) (w : World) (req : Request) (region : Region)
    (ensured : Ctx) (subs : List SubStub) (t1 t2 : List CallEv)
    (hdom : truthy req.shopDomain = true)
    (hvalid : isValidShop (jsString req.shopDomain) = true)
    (hreg : byShopGet regs (jsString req.shopDomain) = some region)
    (hsec : (truthy region.flowSecret &&
      !tscEquals req.flowSecretHeader region.flowSecret) = false)
    (hseal : truthy region.sealToken = true)
    (hshopify : truthy region.shopifyToken = true)
    (hens : ensureOrderContext w
      ⟨jsString req.shopDomain, req.orderId, req.orderName, req.customerId, req.email⟩
      (jsString region.shopifyToken) = (.ok ensured, t1))
    (hoid : truthy ensured.orderId = true)
    (hemail : truthy ensured.email = true)
    (hsearch : sealSearchByEmail w (jsString ensured.email)
      (jsString region.sealToken) = (.ok subs, t2))
    (hfail : ∃ s ∈ subs,
      (w.sealGetResp (jsString s.id) (jsString region.sealToken)).ok = false) :
    (handleOrderCreated regs w req).1 = ⟨500, .err "Server error"⟩ := by
  obtain ⟨e, t3, hdet⟩ :=
    exists_fail_fetchDetails w (jsString region.sealToken) subs hfail
  unfold handleOrderCreated
  simp [hdom, hvalid, hreg, hsec, hseal, hshopify, hens, hoid, hemail, hsearch, hdet]

/-- A world that finds one subscription but whose detail endpoint answers
502 for every id. -/
def detailFailWorld : World := { trivWorld with
  sealSearchResp := fun _ _ => ⟨true, 200, "[]", some (.arr [⟨some "77"⟩])⟩
  sealGetResp := fun _ _ => ⟨false, 502, "bad gateway", none⟩ }

theorem failed_detail_fetch_aborts_witness :
    (handleOrderCreated [ukRegion] detailFailWorld fullReq).1 =
      ⟨500, .err "Server error"⟩ := by
  exact failed_detail_fetch_aborts [ukRegion] detailFailWorld fullReq ukRegion
    fullCtx [⟨some "77"⟩] [] [CallEv.sealSearch "a@b.com" "seal-tok"]
    (by decide) (by decide) (by decide) (by decide) (by decide) (by decide)
    (by decide) (by decide) (by decide) (by decide)
    ⟨⟨some "77"⟩, by decide, by decide⟩
